import Mathlib

/-!
Verification of the QBMS question-bank core: a shallow embedding of the
question store, the duplicate-aware ingestion paths (manual add, Excel bulk
import, edit) and the paper sampler `generate_question_set` from `app.py`,
together with theorems settling the specification's claims.

Tables are modelled as lists of records; SQL `SELECT ... JOIN` queries become
list filters with `any`-based existence checks (faithful under the primary-key
uniqueness that SQLite guarantees and which the relevant theorems take as an
explicit hypothesis where they need it).  `random.shuffle` is modelled as an
injected function `shuffle`; theorems that depend on it assume only that it
returns a permutation of its input, which is all `random.shuffle` guarantees
deterministically.
-/

/-- Python's `str.strip()`: remove leading and trailing whitespace.  Defined
by structural recursion on the underlying character list so that concrete
instances evaluate inside proofs. -/
def String.strip (s : String) : String :=
  ⟨((s.data.dropWhile Char.isWhitespace).reverse.dropWhile Char.isWhitespace).reverse⟩

namespace QBMS

/-- A row of the `subjects` table. -/
structure Subject where
  id : Nat
  code : String
  name : String
deriving DecidableEq, Repr

/-- A row of the `modules` table. -/
structure Module where
  id : Nat
  subject_id : Nat
  module_no : Nat
  title : String
deriving DecidableEq, Repr

/-- A row of the `topics` table. -/
structure Topic where
  id : Nat
  module_id : Nat
  name : String
deriving DecidableEq, Repr

/-- A row of the `questions` table. -/
structure Question where
  id : Nat
  topic_id : Nat
  question_text : String
  marks : Int
  difficulty : String
  cognitive_level : String
  co : String
  po : String
  created_by : Option Nat
deriving DecidableEq, Repr

/-- The SQLite database state: one list per table, plus the AUTOINCREMENT
counter for `questions.id`. -/
structure Store where
  subjects : List Subject
  modules : List Module
  topics : List Topic
  questions : List Question
  next_qid : Nat
deriving DecidableEq, Repr

/-- The three-way join `questions JOIN topics JOIN modules JOIN subjects`
restricted to one question: the question's topic exists, its module exists,
and its subject row exists and has id `subject_id`. -/
def eligible (st : Store) (subject_id : Nat) (q : Question) : Bool :=
  st.topics.any fun t =>
    t.id == q.topic_id &&
    st.modules.any fun m =>
      m.id == t.module_id &&
      st.subjects.any fun s => s.id == m.subject_id && s.id == subject_id

/-- The `SELECT ... WHERE s.id = ? AND q.difficulty = ?` pool read by
`generate_question_set` for one difficulty band. -/
def eligiblePool (st : Store) (subject_id : Nat) (diff : String) : List Question :=
  st.questions.filter fun q => eligible st subject_id q && q.difficulty == diff

/-- One iteration of the band loop in `generate_question_set`: skip if the
requested count is non-positive, otherwise shuffle the band's pool and take
the first `count` rows. -/
def bandSelection (shuffle : List Question → List Question) (st : Store)
    (subject_id : Nat) (dc : String × Int) : List Question :=
  if dc.2 ≤ 0 then [] else (shuffle (eligiblePool st subject_id dc.1)).take dc.2.toNat

/-- `generate_question_set(subject_id, total_questions, difficulty_distribution)`
from `app.py`.  The difficulty distribution is an association list in the
dict's insertion order; `total_questions` is a parameter the source function
never reads.  `shuffle` stands for `random.shuffle`. -/
def generate_question_set (shuffle : List Question → List Question) (st : Store)
    (subject_id : Nat) (total_questions : Int)
    (difficulty_distribution : List (String × Int)) : List Question :=
  let _ := total_questions
  difficulty_distribution.foldl
    (fun paper_questions dc =>
      if dc.2 ≤ 0 then paper_questions
      else paper_questions ++ (shuffle (eligiblePool st subject_id dc.1)).take dc.2.toNat)
    []

/-- State-passing rendering of `generate_question_set`: the loop threads the
database state through every iteration so that any write the function made
would be visible in the first component of the result.  The source performs
only `SELECT`s, which here are reads of the threaded state. -/
def generate_question_set_db (shuffle : List Question → List Question) (st : Store)
    (subject_id : Nat) (total_questions : Int)
    (difficulty_distribution : List (String × Int)) : Store × List Question :=
  let _ := total_questions
  difficulty_distribution.foldl
    (fun acc dc =>
      if dc.2 ≤ 0 then acc
      else
        let rows := eligiblePool acc.1 subject_id dc.1
        (acc.1, acc.2 ++ (shuffle rows).take dc.2.toNat))
    (st, [])

/-- The join behind the topic lookup at the top of the `questions` route (and
the question lookup of `edit_question`): topic `tid` exists and resolves
through a module to an existing subject. -/
def resolvableTopic (st : Store) (tid : Nat) : Bool :=
  st.topics.any fun t =>
    t.id == tid &&
    st.modules.any fun m =>
      m.id == t.module_id && st.subjects.any fun s => s.id == m.subject_id

/-- The form fields of the manual-add POST.  `question_text` is a mandatory
field; `marks`, `difficulty` and `cognitive_level` are read with
`request.form.get(key, default)`, so absence is representable. -/
structure AddForm where
  question_text : String
  marks : Option Int
  difficulty : Option String
  cognitive_level : Option String
  co : String
  po : String
deriving DecidableEq, Repr

/-- The `action == "add"` branch of the `questions(topic_id)` route.  Returns
the new store and whether a row was inserted.  The route first resolves the
topic (redirecting if the join fails), strips the text, skips empty text,
rejects when `SELECT id FROM questions WHERE question_text=? AND topic_id=?`
finds a row, and otherwise inserts with the form defaults applied. -/
def addQuestion (st : Store) (topic_id : Nat) (user_id : Option Nat)
    (form : AddForm) : Store × Bool :=
  if !resolvableTopic st topic_id then (st, false)
  else
    let question_text := form.question_text.strip
    if question_text == "" then (st, false)
    else if st.questions.any fun q =>
        q.question_text == question_text && q.topic_id == topic_id then
      (st, false)
    else
      ({ st with
          questions := st.questions ++
            [{ id := st.next_qid
               topic_id := topic_id
               question_text := question_text
               marks := form.marks.getD 2
               difficulty := form.difficulty.getD "Medium"
               cognitive_level := form.cognitive_level.getD "Understand"
               co := form.co.strip
               po := form.po.strip
               created_by := user_id }]
          next_qid := st.next_qid + 1 },
        true)

/-- One spreadsheet row of the bulk-import feed.  `row.get(key, default)`
makes every field optional; the string fields default to `""`. -/
structure Row where
  question_text : String
  marks : Option Int
  difficulty : Option String
  cognitive_level : Option String
  co : String
  po : String
deriving DecidableEq, Repr

/-- One iteration of the `import_excel` row loop: strip the text, skip empty
text, skip when `SELECT id FROM questions WHERE question_text=?` (global, no
topic restriction) finds a row on the importing connection, otherwise insert
with `topic_id = 1` and the import defaults. -/
def importRow (st : Store) (row : Row) : Store :=
  let qt := row.question_text.strip
  if qt == "" then st
  else if st.questions.any fun q => q.question_text == qt then st
  else
    { st with
      questions := st.questions ++
        [{ id := st.next_qid
           topic_id := 1
           question_text := qt
           marks := row.marks.getD 2
           difficulty := row.difficulty.getD "Medium"
           cognitive_level := row.cognitive_level.getD "Understand"
           co := row.co.strip
           po := row.po.strip
           created_by := none }]
      next_qid := st.next_qid + 1 }

/-- The row loop of `import_excel`: rows are processed in feed order on a
single connection, so every insert is visible to the duplicate check of the
later rows (sqlite shows a cursor its own uncommitted writes). -/
def import_excel (st : Store) (rows : List Row) : Store :=
  rows.foldl importRow st

/-- The form fields of the `edit_question` POST: same shape as manual add
(`question_text` mandatory, the rest read with defaults). -/
structure EditForm where
  question_text : String
  marks : Option Int
  difficulty : Option String
  cognitive_level : Option String
  co : String
  po : String
deriving DecidableEq, Repr

/-- The `edit_question(question_id)` route (POST branch): look the question up
through the full join (question must exist and resolve to a subject), check
that the caller is admin or the creator, then `UPDATE questions SET ...`
with the form values, applying `request.form.get` defaults for absent
fields. -/
def edit_question (st : Store) (question_id : Nat) (user_id : Option Nat)
    (role : String) (form : EditForm) : Store :=
  match st.questions.find? fun q =>
      q.id == question_id && resolvableTopic st q.topic_id with
  | none => st
  | some q =>
    if role != "admin" && q.created_by != user_id then st
    else
      { st with
        questions := st.questions.map fun q' =>
          if q'.id == question_id then
            { q' with
              question_text := form.question_text.strip
              marks := form.marks.getD 2
              difficulty := form.difficulty.getD "Medium"
              cognitive_level := form.cognitive_level.getD "Understand"
              co := form.co.strip
              po := form.po.strip }
          else q' }

/-- A small concrete database used by the witnesses: one subject, one module,
two topics, three questions (two Easy, one Hard). -/
def stW : Store :=
  { subjects := [{ id := 1, code := "CS101", name := "Programming" }]
    modules := [{ id := 1, subject_id := 1, module_no := 1, title := "Basics" }]
    topics := [{ id := 1, module_id := 1, name := "Loops" },
               { id := 2, module_id := 1, name := "Arrays" }]
    questions :=
      [{ id := 1, topic_id := 1, question_text := "What is a loop?", marks := 2,
         difficulty := "Easy", cognitive_level := "Understand", co := "", po := "",
         created_by := some 1 },
       { id := 2, topic_id := 2, question_text := "Define array.", marks := 2,
         difficulty := "Easy", cognitive_level := "Remember", co := "", po := "",
         created_by := none },
       { id := 3, topic_id := 1, question_text := "Analyze loop invariants.", marks := 5,
         difficulty := "Hard", cognitive_level := "Analyze", co := "", po := "",
         created_by := some 1 }]
    next_qid := 4 }

/-- A store whose `subjects` table has no subject with id 1 but which still
holds a module, a topic and an Easy question referencing that absent
subject. -/
def stNoSubject : Store :=
  { subjects := []
    modules := [{ id := 1, subject_id := 1, module_no := 1, title := "Basics" }]
    topics := [{ id := 1, module_id := 1, name := "Loops" }]
    questions :=
      [{ id := 1, topic_id := 1, question_text := "What is a loop?", marks := 2,
         difficulty := "Easy", cognitive_level := "Understand", co := "", po := "",
         created_by := none }]
    next_qid := 2 }

/-- A store where subject 1 exists but has no modules, topics or questions. -/
def stSubjectNoQuestions : Store :=
  { subjects := [{ id := 1, code := "CS101", name := "Programming" }]
    modules := []
    topics := []
    questions := []
    next_qid := 1 }

/-- The question record the manual-add route inserts. -/
def newQuestion (st : Store) (topic_id : Nat) (user_id : Option Nat)
    (form : AddForm) : Question :=
  { id := st.next_qid
    topic_id := topic_id
    question_text := form.question_text.strip
    marks := form.marks.getD 2
    difficulty := form.difficulty.getD "Medium"
    cognitive_level := form.cognitive_level.getD "Understand"
    co := form.co.strip
    po := form.po.strip
    created_by := user_id }

/-- A fresh manual-add form used by witnesses. -/
def formW : AddForm :=
  { question_text := " What is recursion? ", marks := none, difficulty := none,
    cognitive_level := none, co := "", po := "" }

/-- Rows used by the import witnesses: a whitespace-only row, and two rows
whose texts trim to the text of question 1 of `stW`. -/
def rowBlank : Row :=
  { question_text := "   ", marks := none, difficulty := none,
    cognitive_level := none, co := "", po := "" }

def rowLoop : Row :=
  { question_text := "What is a loop?", marks := none, difficulty := none,
    cognitive_level := none, co := "", po := "" }

def rowLoopPadded : Row :=
  { question_text := " What is a loop? ", marks := none, difficulty := none,
    cognitive_level := none, co := "", po := "" }

/-- An edit form that supplies the text but omits marks, difficulty and
cognitive level. -/
def editFormW : EditForm :=
  { question_text := "Analyze loop invariants.", marks := none, difficulty := none,
    cognitive_level := none, co := "", po := "" }

end QBMS

namespace QBMS

/-- Folding `acc ++ f b` over a list appends the flattened image. -/
theorem foldl_append_eq_flatten {α β : Type} (f : β → List α) :
    ∀ (l : List β) (acc : List α),
      l.foldl (fun a b => a ++ f b) acc = acc ++ (l.map f).flatten
  | [], acc => by simp
  | b :: l, acc => by
    simp [List.foldl_cons, foldl_append_eq_flatten f l, List.append_assoc]

/-- Unrolling the band loop: the returned paper is the concatenation of the
per-band selections, in quota-map iteration order. -/
theorem generate_eq_flatten (shuffle : List Question → List Question)
    (st : Store) (subject_id : Nat) (total_questions : Int)
    (dist : List (String × Int)) :
    generate_question_set shuffle st subject_id total_questions dist
      = (dist.map (bandSelection shuffle st subject_id)).flatten := by
  have hfun : (fun (paper_questions : List Question) (dc : String × Int) =>
      if dc.2 ≤ 0 then paper_questions
      else paper_questions ++ (shuffle (eligiblePool st subject_id dc.1)).take dc.2.toNat)
      = fun paper_questions dc =>
          paper_questions ++ bandSelection shuffle st subject_id dc := by
    funext paper_questions dc
    by_cases h : dc.2 ≤ 0 <;> simp [bandSelection, h]
  show dist.foldl _ [] = _
  rw [hfun, foldl_append_eq_flatten]
  simp

/-- Pointwise bound and equality criterion for sums over a mapped list. -/
theorem sum_map_eq_iff {α : Type} (f g : α → Nat) :
    ∀ (l : List α), (∀ x ∈ l, f x ≤ g x) →
      ((l.map f).sum = (l.map g).sum ↔ ∀ x ∈ l, f x = g x)
  | [], _ => by simp
  | a :: l, h => by
    have hl : ∀ x ∈ l, f x ≤ g x := fun x hx => h x (List.mem_cons_of_mem a hx)
    have ha : f a ≤ g a := h a (List.mem_cons_self a l)
    have hsum : (l.map f).sum ≤ (l.map g).sum := List.sum_le_sum hl
    have hrec := sum_map_eq_iff f g l hl
    simp only [List.map_cons, List.sum_cons, List.mem_cons]
    constructor
    · intro he
      have h1 : f a = g a := by omega
      have h2 : (l.map f).sum = (l.map g).sum := by omega
      intro x hx
      rcases hx with rfl | hx
      · exact h1
      · exact (hrec.mp h2) x hx
    · intro hall
      have h1 : f a = g a := hall a (Or.inl rfl)
      have h2 : (l.map f).sum = (l.map g).sum :=
        hrec.mpr fun x hx => hall x (Or.inr hx)
      omega

/-- C1: for a quota map with non-negative counts (the spec's quota maps are
difficulty-to-non-negative-count mappings) and a shuffle that permutes its
input, every band contributes exactly `min(quota, pool size)` questions, the
paper's total length is at most the sum of the quotas, and it equals that sum
exactly when every band's eligible pool has at least the requested count;
under-fill raises nothing, the function is total. -/
theorem c1_band_counts_and_total (shuffle : List Question → List Question)
    (st : Store) (subject_id : Nat) (total_questions : Int)
    (dist : List (String × Int))
    (hq : ∀ p ∈ dist, 0 ≤ p.2)
    (hs : ∀ l, (shuffle l).length = l.length) :
    (∀ p ∈ dist, (bandSelection shuffle st subject_id p).length
        = min p.2.toNat (eligiblePool st subject_id p.1).length)
    ∧ (generate_question_set shuffle st subject_id total_questions dist).length
        ≤ (dist.map fun p => p.2.toNat).sum
    ∧ ((generate_question_set shuffle st subject_id total_questions dist).length
          = (dist.map fun p => p.2.toNat).sum
        ↔ ∀ p ∈ dist, p.2.toNat ≤ (eligiblePool st subject_id p.1).length) := by
  have hband : ∀ p ∈ dist, (bandSelection shuffle st subject_id p).length
      = min p.2.toNat (eligiblePool st subject_id p.1).length := by
    intro p hp
    by_cases h : p.2 ≤ 0
    · have h0 : p.2 = 0 := le_antisymm h (hq p hp)
      simp [bandSelection, h, h0]
    · simp [bandSelection, h, List.length_take, hs]
  have hmin_le : ∀ p ∈ dist,
      (bandSelection shuffle st subject_id p).length ≤ p.2.toNat := by
    intro p hp
    rw [hband p hp]
    exact Nat.min_le_left _ _
  have hlen : (generate_question_set shuffle st subject_id total_questions dist).length
      = (dist.map fun p => (bandSelection shuffle st subject_id p).length).sum := by
    rw [generate_eq_flatten, List.length_flatten, List.map_map]
    rfl
  refine ⟨hband, ?_, ?_⟩
  · rw [hlen]
    exact List.sum_le_sum hmin_le
  · rw [hlen]
    rw [sum_map_eq_iff _ _ dist hmin_le]
    constructor
    · intro hall p hp
      have := hall p hp
      rw [hband p hp] at this
      exact min_eq_left_iff.mp this
    · intro hall p hp
      rw [hband p hp]
      exact Nat.min_eq_left (hall p hp)

end QBMS

namespace QBMS


/-- Witness for C1 at a concrete store and quota map. -/
theorem c1_band_counts_and_total_witness :
    (generate_question_set (fun l => l) stW 1 3 [("Easy", 2), ("Hard", 1)]).length
      ≤ ([(("Easy" : String), (2 : Int)), ("Hard", 1)].map fun p => p.2.toNat).sum :=
  (c1_band_counts_and_total (fun l => l) stW 1 3 [("Easy", 2), ("Hard", 1)]
    (by decide) (fun l => rfl)).2.1

/-- C5: the returned paper is exactly the concatenation of the per-band
selections in the iteration order of the quota map, each band contributing
the first `count` items of its shuffled pool in their shuffled order; no
other ordering is imposed. -/
theorem c5_paper_is_band_concatenation (shuffle : List Question → List Question)
    (st : Store) (subject_id : Nat) (total_questions : Int)
    (dist : List (String × Int)) :
    generate_question_set shuffle st subject_id total_questions dist
      = (dist.map fun dc =>
          if dc.2 ≤ 0 then []
          else (shuffle (eligiblePool st subject_id dc.1)).take dc.2.toNat).flatten := by
  rw [generate_eq_flatten]
  rfl

/-- The state-passing band loop never changes the store component and computes
the same paper as the pure function. -/
theorem db_foldl (shuffle : List Question → List Question) (st : Store) (sid : Nat) :
    ∀ (dist : List (String × Int)) (acc : List Question),
      dist.foldl
        (fun acc dc =>
          if dc.2 ≤ 0 then acc
          else (acc.1, acc.2 ++ (shuffle (eligiblePool acc.1 sid dc.1)).take dc.2.toNat))
        (st, acc)
      = (st, dist.foldl
          (fun paper dc =>
            if dc.2 ≤ 0 then paper
            else paper ++ (shuffle (eligiblePool st sid dc.1)).take dc.2.toNat)
          acc)
  | [], _ => rfl
  | dc :: dist, acc => by
    by_cases h : dc.2 ≤ 0 <;>
      simp [List.foldl_cons, h, db_foldl shuffle st sid dist]

/-- C9: the sampler mutates nothing.  In the state-passing rendering of
`generate_question_set` the database state after the call is the input state,
and the returned paper is the pure function of the store, the arguments and
the random source alone — no other state enters or survives the call. -/
theorem c9_sampler_is_read_only (shuffle : List Question → List Question)
    (st : Store) (subject_id : Nat) (total_questions : Int)
    (dist : List (String × Int)) :
    (generate_question_set_db shuffle st subject_id total_questions dist).1 = st
    ∧ (generate_question_set_db shuffle st subject_id total_questions dist).2
        = generate_question_set shuffle st subject_id total_questions dist := by
  simp only [generate_question_set_db, generate_question_set]
  rw [db_foldl]
  exact ⟨rfl, rfl⟩

end QBMS

namespace QBMS

/-- A pool member is a stored question with the band's difficulty. -/
theorem mem_eligiblePool (st : Store) (subject_id : Nat) (d : String)
    (q : Question) (hq : q ∈ eligiblePool st subject_id d) :
    q ∈ st.questions ∧ q.difficulty = d := by
  have h := List.mem_filter.mp hq
  refine ⟨h.1, ?_⟩
  have h2 := h.2
  simp only [Bool.and_eq_true, beq_iff_eq] at h2
  exact h2.2

/-- Every question a band selects lies in that band's eligible pool. -/
theorem bandSelection_subset (shuffle : List Question → List Question)
    (st : Store) (subject_id : Nat) (p : String × Int)
    (hs : ∀ l, (shuffle l).Perm l)
    (q : Question) (hq : q ∈ bandSelection shuffle st subject_id p) :
    q ∈ eligiblePool st subject_id p.1 := by
  unfold bandSelection at hq
  by_cases h : p.2 ≤ 0
  · simp [h] at hq
  · rw [if_neg h] at hq
    exact (hs _).mem_iff.mp (List.mem_of_mem_take hq)

/-- A band's selection never repeats a question id (given globally unique
question ids, as the primary key guarantees). -/
theorem bandSelection_nodup_ids (shuffle : List Question → List Question)
    (st : Store) (subject_id : Nat) (p : String × Int)
    (hND : (st.questions.map fun q => q.id).Nodup)
    (hs : ∀ l, (shuffle l).Perm l) :
    ((bandSelection shuffle st subject_id p).map fun q => q.id).Nodup := by
  have hpool : ((eligiblePool st subject_id p.1).map fun q => q.id).Nodup :=
    hND.sublist ((List.filter_sublist _).map _)
  have hshuf : ((shuffle (eligiblePool st subject_id p.1)).map fun q => q.id).Nodup :=
    (((hs _).map _).nodup_iff).mpr hpool
  unfold bandSelection
  by_cases h : p.2 ≤ 0
  · simp [h]
  · rw [if_neg h]
    exact hshuf.sublist ((List.take_sublist _ _).map _)

/-- C3: one invocation of the sampler selects, per band, a subset of that
band's full eligible pool (questions whose topic belongs via its module to
the subject and whose difficulty equals the band), and the returned paper
never contains two entries with the same question id — given that stored
question ids are unique (primary key) and the quota map has distinct keys
(a Python dict cannot repeat a key). -/
theorem c3_selection_subset_and_nodup_ids (shuffle : List Question → List Question)
    (st : Store) (subject_id : Nat) (total_questions : Int)
    (dist : List (String × Int))
    (hND : (st.questions.map fun q => q.id).Nodup)
    (hkeys : (dist.map Prod.fst).Nodup)
    (hs : ∀ l, (shuffle l).Perm l) :
    (∀ p ∈ dist, ∀ q ∈ bandSelection shuffle st subject_id p,
        q ∈ eligiblePool st subject_id p.1)
    ∧ ((generate_question_set shuffle st subject_id total_questions dist).map
        fun q => q.id).Nodup := by
  constructor
  · intro p _ q hq
    exact bandSelection_subset shuffle st subject_id p hs q hq
  · rw [generate_eq_flatten, List.map_flatten, List.map_map]
    rw [List.nodup_flatten]
    constructor
    · intro l hl
      rcases List.mem_map.mp hl with ⟨p, _, rfl⟩
      exact bandSelection_nodup_ids shuffle st subject_id p hND hs
    · rw [List.pairwise_map]
      refine (List.pairwise_map.mp hkeys).imp ?_
      intro a b hab i hia hib
      rcases List.mem_map.mp hia with ⟨qa, hqa, hqaid⟩
      rcases List.mem_map.mp hib with ⟨qb, hqb, hqbid⟩
      have ha := mem_eligiblePool st subject_id a.1 qa
        (bandSelection_subset shuffle st subject_id a hs qa hqa)
      have hb := mem_eligiblePool st subject_id b.1 qb
        (bandSelection_subset shuffle st subject_id b hs qb hqb)
      have hid : qa.id = qb.id := by rw [hqaid, hqbid]
      have : qa = qb := List.inj_on_of_nodup_map hND ha.1 hb.1 hid
      apply hab
      rw [← ha.2, ← hb.2, this]

end QBMS

namespace QBMS

/-- Witness for C3: the concrete paper over `stW` repeats no question id. -/
theorem c3_selection_subset_and_nodup_ids_witness :
    ((generate_question_set (fun l => l) stW 1 3 [("Easy", 2), ("Hard", 1)]).map
        fun q => q.id).Nodup :=
  (c3_selection_subset_and_nodup_ids (fun l => l) stW 1 3 [("Easy", 2), ("Hard", 1)]
    (by decide) (by decide) (fun l => List.Perm.refl l)).2

/-- C4: a difficulty band whose quota is zero or negative contributes no
question to the paper — no returned question carries that band's difficulty
(given distinct quota-map keys, as a Python dict guarantees, and a shuffle
that permutes its input). -/
theorem c4_nonpositive_quota_band_absent (shuffle : List Question → List Question)
    (st : Store) (subject_id : Nat) (total_questions : Int)
    (dist : List (String × Int)) (d : String) (c : Int)
    (hkeys : (dist.map Prod.fst).Nodup)
    (hs : ∀ l, (shuffle l).Perm l)
    (hmem : (d, c) ∈ dist) (hc : c ≤ 0) :
    ∀ q ∈ generate_question_set shuffle st subject_id total_questions dist,
      q.difficulty ≠ d := by
  intro q hq
  rw [generate_eq_flatten] at hq
  rcases List.mem_flatten.mp hq with ⟨l, hl, hql⟩
  rcases List.mem_map.mp hl with ⟨p, hp, rfl⟩
  by_cases hpd : p = (d, c)
  · subst hpd
    simp [bandSelection, hc] at hql
  · have hne : p.1 ≠ d := by
      intro h1
      exact hpd (List.inj_on_of_nodup_map hkeys hp hmem (by simpa using h1))
    have hq2 := mem_eligiblePool st subject_id p.1 q
      (bandSelection_subset shuffle st subject_id p hs q hql)
    intro hqd
    exact hne (by rw [← hq2.2, hqd])

/-- Witness for C4: the Easy question with id 1 is in the concrete paper and
its difficulty is not the zero-quota band "Hard". -/
theorem c4_nonpositive_quota_band_absent_witness :
    ({ id := 1, topic_id := 1, question_text := "What is a loop?", marks := 2,
       difficulty := "Easy", cognitive_level := "Understand", co := "", po := "",
       created_by := some 1 } : Question).difficulty ≠ "Hard" :=
  c4_nonpositive_quota_band_absent (fun l => l) stW 1 3 [("Easy", 2), ("Hard", 0)]
    "Hard" 0 (by decide) (fun l => List.Perm.refl l) (by decide) (by decide)
    _ (by decide)


/-- C6 counterexample: the sampler's output for an unknown subject is the
bare empty list — byte-identical to its output for a subject that exists but
has no matching-difficulty questions — so nothing in the returned value is
an explicit "zero eligible" outcome and a caller cannot distinguish the two
situations from it. -/
theorem c6_counterexample :
    generate_question_set (fun l => l) stNoSubject 1 6
        [("Easy", 2), ("Medium", 3), ("Hard", 1)]
      = generate_question_set (fun l => l) stSubjectNoQuestions 1 6
        [("Easy", 2), ("Medium", 3), ("Hard", 1)]
    ∧ generate_question_set (fun l => l) stNoSubject 1 6
        [("Easy", 2), ("Medium", 3), ("Hard", 1)] = [] := by
  exact ⟨by decide, by decide⟩

/-- C6 amended: paper generation against a subject id not present in the
store raises nothing — every band's eligible pool is empty and the function
returns the plain empty list (the same value a known subject with no
matching questions produces; the code offers no separate "zero eligible"
signal). -/
theorem c6_unknown_subject_empty (shuffle : List Question → List Question)
    (st : Store) (subject_id : Nat) (total_questions : Int)
    (dist : List (String × Int))
    (hnosubj : ∀ s ∈ st.subjects, s.id ≠ subject_id)
    (hs : ∀ l, (shuffle l).Perm l) :
    (∀ d, eligiblePool st subject_id d = [])
    ∧ generate_question_set shuffle st subject_id total_questions dist = [] := by
  have helig : ∀ q, ¬ eligible st subject_id q = true := by
    intro q h
    simp only [eligible, List.any_eq_true, Bool.and_eq_true, beq_iff_eq] at h
    rcases h with ⟨t, _, _, m, _, _, s, hsmem, _, hsid⟩
    exact hnosubj s hsmem hsid
  have hpool : ∀ d, eligiblePool st subject_id d = [] := by
    intro d
    apply List.filter_eq_nil_iff.mpr
    intro q _
    simp [helig q]
  have hsn : shuffle [] = [] := (hs []).eq_nil
  refine ⟨hpool, ?_⟩
  rw [generate_eq_flatten]
  apply List.flatten_eq_nil_iff.mpr
  intro l hl
  rcases List.mem_map.mp hl with ⟨p, _, rfl⟩
  unfold bandSelection
  by_cases h : p.2 ≤ 0
  · simp [h]
  · rw [if_neg h, hpool, hsn]
    exact List.take_nil

/-- Witness for the amended C6 at a concrete store and quota map. -/
theorem c6_unknown_subject_empty_witness :
    generate_question_set (fun l => l) stNoSubject 2 6 [("Easy", 1)] = [] :=
  (c6_unknown_subject_empty (fun l => l) stNoSubject 2 6 [("Easy", 1)]
    (by decide) (fun l => List.Perm.refl l)).2

end QBMS

namespace QBMS


/-- Characterisation of a successful manual add. -/
theorem addQuestion_insert (st : Store) (tid : Nat) (uid : Option Nat) (form : AddForm)
    (ht : resolvableTopic st tid = true)
    (hx : form.question_text.strip ≠ "")
    (hdup : (st.questions.any fun q =>
        q.question_text == form.question_text.strip && q.topic_id == tid) = false) :
    addQuestion st tid uid form
      = ({ st with
            questions := st.questions ++ [newQuestion st tid uid form]
            next_qid := st.next_qid + 1 }, true) := by
  unfold addQuestion newQuestion
  rw [ht]
  simp [beq_eq_false_iff_ne.mpr hx, hdup]

/-- Characterisation of a rejected manual add (duplicate in the topic). -/
theorem addQuestion_reject (st : Store) (tid : Nat) (uid : Option Nat) (form : AddForm)
    (ht : resolvableTopic st tid = true)
    (hx : form.question_text.strip ≠ "")
    (hdup : (st.questions.any fun q =>
        q.question_text == form.question_text.strip && q.topic_id == tid) = true) :
    addQuestion st tid uid form = (st, false) := by
  unfold addQuestion
  rw [ht]
  simp [beq_eq_false_iff_ne.mpr hx, hdup]

/-- C2: starting from a store whose topics `t` and `t'` both resolve and
contain no question with the candidate's trimmed text, the first manual add
into `t` succeeds; repeating the identical text in topic `t` is rejected and
leaves the store exactly as it was; inserting the identical text into the
different topic `t'` is accepted.  The match is string equality on the
trimmed text, hence case-sensitive and per-topic. -/
theorem c2_manual_duplicate_guard (st : Store) (t t' : Nat)
    (uid uid' uid'' : Option Nat) (form : AddForm)
    (ht : resolvableTopic st t = true) (ht' : resolvableTopic st t' = true)
    (htt' : t ≠ t')
    (hx : form.question_text.strip ≠ "")
    (h1 : ∀ q ∈ st.questions, q.topic_id = t → q.question_text ≠ form.question_text.strip)
    (h2 : ∀ q ∈ st.questions, q.topic_id = t' → q.question_text ≠ form.question_text.strip) :
    (addQuestion st t uid form).2 = true
    ∧ addQuestion (addQuestion st t uid form).1 t uid' form
        = ((addQuestion st t uid form).1, false)
    ∧ (addQuestion (addQuestion st t uid form).1 t' uid'' form).2 = true := by
  have hdup1 : (st.questions.any fun q =>
      q.question_text == form.question_text.strip && q.topic_id == t) = false := by
    rw [List.any_eq_false]
    intro q hq
    simp only [Bool.and_eq_true, beq_iff_eq, not_and]
    intro hqt hqtop
    exact h1 q hq hqtop hqt
  have hdup2 : (st.questions.any fun q =>
      q.question_text == form.question_text.strip && q.topic_id == t') = false := by
    rw [List.any_eq_false]
    intro q hq
    simp only [Bool.and_eq_true, beq_iff_eq, not_and]
    intro hqt hqtop
    exact h2 q hq hqtop hqt
  have hstep1 := addQuestion_insert st t uid form ht hx hdup1
  rw [hstep1]
  have ht1 : resolvableTopic
      { st with
        questions := st.questions ++ [newQuestion st t uid form]
        next_qid := st.next_qid + 1 } t = true := ht
  have ht1' : resolvableTopic
      { st with
        questions := st.questions ++ [newQuestion st t uid form]
        next_qid := st.next_qid + 1 } t' = true := ht'
  refine ⟨rfl, ?_, ?_⟩
  · apply addQuestion_reject _ _ _ _ ht1 hx
    simp [List.any_append, hdup1, newQuestion]
  · rw [addQuestion_insert _ _ _ _ ht1' hx]
    simp [List.any_append, hdup2, newQuestion, htt']

end QBMS

namespace QBMS


/-- Witness for C2 at the concrete store `stW`, topics 1 and 2. -/
theorem c2_manual_duplicate_guard_witness :
    (addQuestion stW 1 (some 1) formW).2 = true
    ∧ addQuestion (addQuestion stW 1 (some 1) formW).1 1 (some 2) formW
        = ((addQuestion stW 1 (some 1) formW).1, false)
    ∧ (addQuestion (addQuestion stW 1 (some 1) formW).1 2 (some 2) formW).2 = true :=
  c2_manual_duplicate_guard stW 1 2 (some 1) (some 2) (some 2) formW
    (by decide) (by decide) (by decide) (by decide) (by decide) (by decide)

/-- C7: bulk import skips — without raising and without inserting — every
row whose trimmed text is empty, and every row whose trimmed text already
exists anywhere in the store, regardless of topic (global scope). -/
theorem c7_import_skips_blank_and_duplicate (st : Store) (row : Row) :
    (row.question_text.strip = "" → importRow st row = st)
    ∧ ((∃ q ∈ st.questions, q.question_text = row.question_text.strip) →
        importRow st row = st) := by
  constructor
  · intro h
    simp only [importRow]
    rw [if_pos (by simpa using h)]
  · rintro ⟨q, hq, hqt⟩
    have hdup : (st.questions.any fun q' =>
        q'.question_text == row.question_text.strip) = true := by
      rw [List.any_eq_true]
      exact ⟨q, hq, by simpa using hqt⟩
    simp only [importRow]
    by_cases he : (row.question_text.strip == "") = true
    · rw [if_pos he]
    · rw [if_neg he, if_pos hdup]


/-- Witness for C7: a whitespace-only row and an already-present text are
both skipped on the concrete store. -/
theorem c7_import_skips_blank_and_duplicate_witness :
    importRow stW rowBlank = stW ∧ importRow stW rowLoopPadded = stW :=
  ⟨(c7_import_skips_blank_and_duplicate stW rowBlank).1 (by decide),
   (c7_import_skips_blank_and_duplicate stW rowLoopPadded).2
     ⟨{ id := 1, topic_id := 1, question_text := "What is a loop?", marks := 2,
        difficulty := "Easy", cognitive_level := "Understand", co := "", po := "",
        created_by := some 1 }, by decide, by decide⟩⟩

/-- One import step never leaves more than `max 1 n` stored questions with a
given text, where `n` is the count before the step. -/
theorem importRow_countP (st : Store) (row : Row) (t : String) :
    ((importRow st row).questions.countP fun q => q.question_text == t)
      ≤ max 1 (st.questions.countP fun q => q.question_text == t) := by
  simp only [importRow]
  by_cases he : (row.question_text.strip == "") = true
  · rw [if_pos he]
    exact Nat.le_max_right _ _
  · rw [if_neg he]
    by_cases hd : (st.questions.any fun q =>
        q.question_text == row.question_text.strip) = true
    · rw [if_pos hd]
      exact Nat.le_max_right _ _
    · rw [if_neg hd]
      simp only [List.countP_append]
      have hdf : (st.questions.any fun q =>
          q.question_text == row.question_text.strip) = false := by
        simpa using hd
      by_cases hqt : row.question_text.strip = t
      · have hzero : (st.questions.countP fun q => q.question_text == t) = 0 := by
          rw [List.countP_eq_zero]
          intro q hq
          rw [← hqt]
          exact List.any_eq_false.mp hdf q hq
        rw [hzero]
        simp [List.countP_cons, hqt]
      · simp only [List.countP_cons, List.countP_nil]
        have hbeq : (row.question_text.strip == t) = false :=
          beq_eq_false_iff_ne.mpr hqt
        simp [hbeq]

/-- Folding the import over a whole feed keeps the per-text count at or
below `max 1 n`. -/
theorem import_excel_countP (t : String) :
    ∀ (rows : List Row) (st : Store),
      ((import_excel st rows).questions.countP fun q => q.question_text == t)
        ≤ max 1 (st.questions.countP fun q => q.question_text == t)
  | [], _ => Nat.le_max_right _ _
  | row :: rows, st => by
    have h1 := import_excel_countP t rows (importRow st row)
    have h2 := importRow_countP st row t
    simp only [import_excel, List.foldl_cons] at h1 ⊢
    omega

/-- C10: within one bulk import, rows with identical trimmed text yield at
most one stored question with that text when the store had none before — the
duplicate check runs on the importing connection and sees the earlier
uncommitted inserts of the same feed. -/
theorem c10_within_feed_dedup (st : Store) (rows : List Row) (t : String)
    (h0 : (st.questions.countP fun q => q.question_text == t) = 0) :
    ((import_excel st rows).questions.countP fun q => q.question_text == t) ≤ 1 := by
  have h := import_excel_countP t rows st
  rw [h0] at h
  simpa using h

/-- Witness for C10: importing two rows that both trim to the same text into
an empty store stores that text at most once. -/
theorem c10_within_feed_dedup_witness :
    ((import_excel stSubjectNoQuestions [rowLoop, rowLoopPadded]).questions.countP
        fun q => q.question_text == "What is a loop?") ≤ 1 :=
  c10_within_feed_dedup stSubjectNoQuestions [rowLoop, rowLoopPadded]
    "What is a loop?" (by decide)

end QBMS

namespace QBMS


/-- C8 counterexample: updating question 3 of `stW` with a form that omits
marks, difficulty and cognitive level silently replaces the stored values
(marks 5, "Hard", "Analyze") with the defaults (2, "Medium", "Understand").
The update path does substitute the defaults for missing fields, contrary to
the claim that an update never does. -/
theorem c8_counterexample :
    ((edit_question stW 3 (some 1) "admin" editFormW).questions.filter
        fun q => q.id == 3)
      = [{ id := 3, topic_id := 1, question_text := "Analyze loop invariants.",
           marks := 2, difficulty := "Medium", cognitive_level := "Understand",
           co := "", po := "", created_by := some 1 }]
    ∧ (stW.questions.filter fun q => q.id == 3)
      = [{ id := 3, topic_id := 1, question_text := "Analyze loop invariants.",
           marks := 5, difficulty := "Hard", cognitive_level := "Analyze",
           co := "", po := "", created_by := some 1 }] := by
  exact ⟨by decide, by decide⟩

/-- C8 amended: the defaults marks = 2, difficulty = "Medium", cognitive
level = "Understand" are applied wherever the corresponding field is absent
— at the construction boundary (manual add and bulk import) and equally
inside the update path: `edit_question` substitutes the same defaults for
missing form fields instead of keeping the stored values. -/
theorem c8_defaults_applied_everywhere (st : Store) :
    (∀ (tid : Nat) (uid : Option Nat) (form : AddForm),
        resolvableTopic st tid = true →
        form.question_text.strip ≠ "" →
        (st.questions.any fun q =>
            q.question_text == form.question_text.strip && q.topic_id == tid) = false →
        form.marks = none → form.difficulty = none → form.cognitive_level = none →
        (addQuestion st tid uid form).1.questions
          = st.questions ++
            [{ id := st.next_qid, topic_id := tid,
               question_text := form.question_text.strip, marks := 2,
               difficulty := "Medium", cognitive_level := "Understand",
               co := form.co.strip, po := form.po.strip, created_by := uid }])
    ∧ (∀ row : Row, row.question_text.strip ≠ "" →
        (st.questions.any fun q => q.question_text == row.question_text.strip) = false →
        row.marks = none → row.difficulty = none → row.cognitive_level = none →
        (importRow st row).questions
          = st.questions ++
            [{ id := st.next_qid, topic_id := 1,
               question_text := row.question_text.strip, marks := 2,
               difficulty := "Medium", cognitive_level := "Understand",
               co := row.co.strip, po := row.po.strip, created_by := none }])
    ∧ (∀ (qid : Nat) (uid : Option Nat) (form : EditForm),
        (st.questions.find? fun q =>
            q.id == qid && resolvableTopic st q.topic_id).isSome →
        form.marks = none → form.difficulty = none → form.cognitive_level = none →
        ∀ q' ∈ (edit_question st qid uid "admin" form).questions, q'.id = qid →
          q'.marks = 2 ∧ q'.difficulty = "Medium"
            ∧ q'.cognitive_level = "Understand") := by
  refine ⟨?_, ?_, ?_⟩
  · intro tid uid form ht hx hdup hm hd hc
    rw [addQuestion_insert st tid uid form ht hx hdup]
    simp [newQuestion, hm, hd, hc]
  · intro row hx hdup hm hd hc
    simp only [importRow]
    rw [if_neg (by simpa using hx), if_neg (by simp [hdup])]
    simp [hm, hd, hc]
  · intro qid uid form hfind hm hd hc q' hq' hid
    rcases Option.isSome_iff_exists.mp hfind with ⟨q0, hq0⟩
    simp only [edit_question, hq0] at hq'
    simp only [bne_self_eq_false, Bool.false_and, Bool.false_eq_true,
      if_false] at hq'
    rcases List.mem_map.mp hq' with ⟨x, _, rfl⟩
    by_cases hxid : (x.id == qid) = true
    · simp [hxid, hm, hd, hc]
    · rw [if_neg hxid] at hid ⊢
      exact absurd (by simpa using hid) (by simpa using hxid)

/-- Witness for the amended C8: a bulk-import row with absent marks,
difficulty and cognitive level is stored with the defaults. -/
theorem c8_defaults_applied_everywhere_witness :
    (importRow stSubjectNoQuestions rowLoop).questions
      = stSubjectNoQuestions.questions ++
        [{ id := 1, topic_id := 1, question_text := "What is a loop?", marks := 2,
           difficulty := "Medium", cognitive_level := "Understand", co := "", po := "",
           created_by := none }] :=
  (c8_defaults_applied_everywhere stSubjectNoQuestions).2.1 rowLoop
    (by decide) (by decide) rfl rfl rfl

end QBMS
